import Mathlib

/-!
Shallow embedding of the Switching Mixer (SwMx) core, `src/SwitchingMixer.cpp`.

Modelling conventions:
* C++ `float` values are modelled as rationals (`ℚ`); the transcendental
  library functions `std::exp` and `std::pow` (used only in `dbToGain` and in
  the non-bypassed slew-rate formula) are passed to the embedding as explicit
  function arguments, since none of the verified properties depend on their
  values.
* C++ `int` is modelled as `Int`; the `(int)` cast of a nonnegative float is
  truncation toward zero; C++ `%` on `int` is `Int.tmod` (truncating modulus).
* The parameter store `self->v[...]` is modelled as explicit configuration
  records holding the raw integer parameter values.
* Audio buffers (`float* buf`) are modelled as `Nat → Nat → ℚ`
  (bus index, then sample index); `bus(buf, i, N)` returning `nullptr` for
  `i ≤ 0` is modelled by `busPtr : Int → Option Nat`.
* The fixed-size arrays `destGains[4]`, `targetGains[4]` are `Fin 4 → ℚ`;
  loops `for (d = 0; d < numDests; ++d)` touch exactly the entries with
  index `< numDests`.
-/

namespace SwMx

/-- `std::clamp` on rationals (all call sites have `lo ≤ hi`). -/
def clampQ (x lo hi : ℚ) : ℚ := min (max x lo) hi

/-- `std::clamp` on integers (all call sites have `lo ≤ hi`). -/
def clampI (x lo hi : Int) : Int := min (max x lo) hi

/-- The C++ `(int)` cast of a float: truncation toward zero. -/
def truncQ (q : ℚ) : Int := if 0 ≤ q then ⌊q⌋ else ⌈q⌉

/-- `constexpr float TRIGGER_THRESHOLD = 2.5f`. -/
def TRIGGER_THRESHOLD : ℚ := 5/2

/-- `constexpr float GATE_THRESHOLD = 2.5f`. -/
def GATE_THRESHOLD : ℚ := 5/2

/-- Gain epsilon `0.0001f` used to skip negligible-gain writes and to detect
the instant-slew bypass (`slewTime <= 0.0001f`). -/
def GAIN_EPS : ℚ := 1/10000

/-- `enum ControlType` (the six control response policies). -/
inductive ControlType
  | unipolar
  | bipolar
  | trigger
  | trigRev
  | gate
  | gateRev
deriving DecidableEq, Repr

/-- Decode of a clamped raw parameter value into a `ControlType`; models
`(ControlType)std::clamp((int)v, 0, CTRL_TYPE_COUNT - 1)`. -/
def decodeCtrlType (raw : Int) : ControlType :=
  let n := clampI raw 0 5
  if n ≤ 0 then .unipolar
  else if n = 1 then .bipolar
  else if n = 2 then .trigger
  else if n = 3 then .trigRev
  else if n = 4 then .gate
  else .gateRev

/-- `struct MixerGroupState` — per-group runtime state. -/
structure MixerGroupState where
  currentDest : Int := 0
  targetDest : Int := 0
  destGains : Fin 4 → ℚ := fun i => if i.val = 0 then 1 else 0
  targetGains : Fin 4 → ℚ := fun i => if i.val = 0 then 1 else 0
  lastTriggerHigh : Bool := false
  lastMidiValue : Nat := 0
deriving DecidableEq

/-- `processControl(float cv, ControlType type, int numDests,
MixerGroupState& state)`: returns the destination index together with the
updated state (the C++ function mutates `state.lastTriggerHigh` by
reference). -/
def processControl (cv : ℚ) (ty : ControlType) (numDests : Int)
    (state : MixerGroupState) : Int × MixerGroupState :=
  match ty with
  | .unipolar =>
      let normalized := clampQ (cv / 10) 0 (9999/10000)
      (clampI (truncQ (normalized * (numDests : ℚ))) 0 (numDests - 1), state)
  | .bipolar =>
      let normalized := clampQ ((cv + 5) / 10) 0 (9999/10000)
      (clampI (truncQ (normalized * (numDests : ℚ))) 0 (numDests - 1), state)
  | .trigger =>
      let high : Bool := decide (TRIGGER_THRESHOLD < cv)
      let dest := if high && !state.lastTriggerHigh
        then (state.targetDest + 1).tmod numDests
        else state.targetDest
      (clampI dest 0 (numDests - 1), { state with lastTriggerHigh := high })
  | .trigRev =>
      let high : Bool := decide (TRIGGER_THRESHOLD < cv)
      let dest := if high && !state.lastTriggerHigh
        then (state.targetDest + numDests - 1).tmod numDests
        else state.targetDest
      (clampI dest 0 (numDests - 1), { state with lastTriggerHigh := high })
  | .gate =>
      (clampI (if GATE_THRESHOLD < cv then min 1 (numDests - 1) else 0)
        0 (numDests - 1), state)
  | .gateRev =>
      (clampI (if GATE_THRESHOLD < cv then 0 else min 1 (numDests - 1))
        0 (numDests - 1), state)

/-- The call site `state.targetDest = processControl(ctrl[N-1], ctrlType,
numDests, state)` in `step`: runs the decoder and stores its result. -/
def applyControl (cv : ℚ) (ty : ControlType) (numDests : Int)
    (s : MixerGroupState) : MixerGroupState :=
  let r := processControl cv ty numDests s
  { r.2 with targetDest := r.1 }

/-- The per-sample exponential slew update for one destination gain, the loop
body `state.destGains[d] += (state.targetGains[d] - state.destGains[d]) *
slewRate`. -/
def slewStep (rate g tgt : ℚ) : ℚ := g + (tgt - g) * rate

/-- The slew loop `for (d = 0; d < numDests; ++d)` over the gain array. -/
def slewGains (numDests : Nat) (rate : ℚ) (cur tgt : Fin 4 → ℚ) : Fin 4 → ℚ :=
  fun i => if i.val < numDests then slewStep rate (cur i) (tgt i) else cur i

/-- Effective slew time: `float slewTime = (slewMs >= 0.0f) ? slewMs :
globalSlewMs;` (line 434 of `SwitchingMixer.cpp`). -/
def slewTimeOf (slewMs globalSlewMs : ℚ) : ℚ :=
  if 0 ≤ slewMs then slewMs else globalSlewMs

/-- Slew rate (lines 435-440): `slewRate = 1` when `slewTime <= 0.0001f`,
else `1 - exp(-1 / (sampleRate * slewTime))`; `expf` stands for `std::exp`. -/
def slewRateOf (expf : ℚ → ℚ) (sampleRate slewTime : ℚ) : ℚ :=
  if slewTime ≤ GAIN_EPS then 1
  else 1 - expf (-(1 / (sampleRate * slewTime)))

/-- The per-sample signal stage (lines 444-450): read the input pair
(duplicating left when the right bus is absent, zero when the left bus is
absent) and apply the volume scalar. There is no further processing before
distribution. -/
def signalStage (inL inR : Option ℚ) (volume : ℚ) : ℚ × ℚ :=
  let sigL := inL.getD 0
  let sigR := inR.getD sigL
  (sigL * volume, sigR * volume)

/-- Audio buffers: bus index (1-based) and sample index to sample value. -/
def Buses : Type := Nat → Nat → ℚ

/-- `bus(buf, bus_idx, N)`: a valid pointer for positive indices, null
otherwise. -/
def busPtr (idx : Int) : Option Nat := if 0 < idx then some idx.toNat else none

/-- Read one sample through a possibly-null bus pointer. -/
def readBus (b : Buses) (p : Option Nat) (n : Nat) : Option ℚ :=
  p.map fun i => b i n

/-- Write one sample of one bus. -/
def writeBus (b : Buses) (i n : Nat) (v : ℚ) : Buses :=
  fun j m => if j = i ∧ m = n then v else b j m

/-- One null-guarded accumulating write
`if (dest[d]) dest[d][n] += sig * gain;`. -/
def routerWrite1 (destBus : Int) (n : Nat) (sig gain : ℚ) (b : Buses) : Buses :=
  match busPtr destBus with
  | some i => writeBus b i n (b i n + sig * gain)
  | none => b

/-- The per-destination router write (lines 458-464): skip the destination
when its gain is at most the epsilon threshold, otherwise accumulate the
left and right contributions into the destination's bus pair. -/
def routerWrite (destBusL destBusR : Int) (n : Nat) (sigL sigR gain : ℚ)
    (b : Buses) : Buses :=
  if GAIN_EPS < gain then
    routerWrite1 destBusR n sigR gain (routerWrite1 destBusL n sigL gain b)
  else b

/-- Per-group configuration parameters, as read from `self->v[base + ...]`. -/
structure GroupConfig where
  inputL : Int := 0
  inputR : Int := 0
  controlBus : Int := 0
  volumeParam : Int := 0
  ctrlTypeParam : Int := 0
  curveParam : Int := 1
  slewParam : Int := 10
  activeDestParam : Int := 1
  destL : Fin 4 → Int := fun _ => 0
  destR : Fin 4 → Int := fun _ => 0
  midiEnable : Int := 0
  midiChannel : Int := 1
  midiCC : Int := 0

/-- Global configuration: the global parameters plus the construction-time
specification values and the per-group parameter blocks. -/
structure StepConfig where
  bypassParam : Int := 0
  globalSlewParam : Int := 10
  sampleRate : ℚ := 48000
  numGroups : Nat := 1
  numDests : Nat := 2
  groups : Fin 4 → GroupConfig := fun _ => {}

/-- Full runtime state touched by `step`: group states and bus buffers. -/
structure MixerState where
  groups : Fin 4 → MixerGroupState
  buses : Buses

/-- The target-gain loop `for (d = 0; d < numDests; ++d)
targetGains[d] = (d == targetDest) ? 1.0f : 0.0f;`. -/
def targetGainsFor (numDests : Nat) (targetDest : Int) (old : Fin 4 → ℚ) :
    Fin 4 → ℚ :=
  fun i => if i.val < numDests
    then (if (i.val : Int) = targetDest then 1 else 0)
    else old i

/-- One iteration of the inner sample loop of `step` for one group:
signal stage, slew, then the router writes for each destination in order. -/
def stepGroupSample (gc : GroupConfig) (numDests : Nat) (volume slewRate : ℚ)
    (n : Nat) (acc : MixerGroupState × Buses) : MixerGroupState × Buses :=
  let s := acc.1
  let b := acc.2
  let sig := signalStage (readBus b (busPtr gc.inputL) n)
    (readBus b (busPtr gc.inputR) n) volume
  let gains := slewGains numDests slewRate s.destGains s.targetGains
  let b1 := ((List.finRange 4).filter fun i => i.val < numDests).foldl
    (fun bb i => routerWrite (gc.destL i) (gc.destR i) n sig.1 sig.2
      (gains i) bb) b
  ({ s with destGains := gains }, b1)

/-- The body of the per-group loop of `step`: control decode (CV bus when
connected, otherwise the Active Dest parameter), target-gain update, slew
rate derivation, then the sample loop. `expf` stands for `std::exp` and
`dbToGain` for the decibel-to-linear conversion `pow(10, db/20)`. -/
def stepGroup (expf dbToGain : ℚ → ℚ) (cfg : StepConfig) (N : Nat) (g : Fin 4)
    (st : MixerState) : MixerState :=
  let gc := cfg.groups g
  let volume := dbToGain ((gc.volumeParam : ℚ) * (1/10))
  let ty := decodeCtrlType gc.ctrlTypeParam
  let slewMs := (gc.slewParam : ℚ) * (1/1000)
  let activeDest := clampI gc.activeDestParam 1 (cfg.numDests : Int) - 1
  let s0 := st.groups g
  let s1 := match busPtr gc.controlBus with
    | some cb => applyControl (st.buses cb (N - 1)) ty (cfg.numDests : Int) s0
    | none => { s0 with targetDest := activeDest }
  let s2 := { s1 with
    targetGains := targetGainsFor cfg.numDests s1.targetDest s1.targetGains }
  let globalSlewMs := (cfg.globalSlewParam : ℚ) * (1/1000)
  let rate := slewRateOf expf cfg.sampleRate (slewTimeOf slewMs globalSlewMs)
  let r := (List.range N).foldl
    (fun acc n => stepGroupSample gc cfg.numDests volume rate n acc)
    (s2, st.buses)
  { groups := Function.update st.groups g r.1, buses := r.2 }

/-- The per-block entry point `step(_NT_algorithm* b, float* buf, int nBy4)`:
returns immediately under Bypass, otherwise processes each group in turn. -/
def step (expf dbToGain : ℚ → ℚ) (cfg : StepConfig) (N : Nat)
    (st : MixerState) : MixerState :=
  if cfg.bypassParam ≠ 0 then st
  else ((List.finRange 4).filter fun g => g.val < cfg.numGroups).foldl
    (fun acc g => stepGroup expf dbToGain cfg N g acc) st

/-- The per-group body of `midiMessage`: skip the group unless MIDI is
enabled and both the channel and the CC number match; otherwise re-run the
six-policy decision on the CC data byte (threshold 63, edge history in
`lastMidiValue`) and store the decoded destination and target gains. -/
def midiGroupUpdate (cfg : StepConfig) (byte1 byte2 channel : Nat)
    (gs : Fin 4 → MixerGroupState) (g : Fin 4) : Fin 4 → MixerGroupState :=
  let gc := cfg.groups g
  if gc.midiEnable = 0 then gs
  else if (channel : Int) ≠ gc.midiChannel then gs
  else if (byte1 : Int) ≠ gc.midiCC then gs
  else
    let s := gs g
    let ty := decodeCtrlType gc.ctrlTypeParam
    let dest : Int :=
      match ty with
      | .unipolar | .bipolar =>
          truncQ ((byte2 : ℚ) / 127 * (9999/10000) * (cfg.numDests : ℚ))
      | .trigger =>
          if 63 < byte2 && !(decide (63 < s.lastMidiValue))
          then (s.targetDest + 1).tmod (cfg.numDests : Int)
          else s.targetDest
      | .trigRev =>
          if 63 < byte2 && !(decide (63 < s.lastMidiValue))
          then (s.targetDest + (cfg.numDests : Int) - 1).tmod (cfg.numDests : Int)
          else s.targetDest
      | .gate => if 63 < byte2 then min 1 ((cfg.numDests : Int) - 1) else 0
      | .gateRev => if 63 < byte2 then 0 else min 1 ((cfg.numDests : Int) - 1)
    let td := clampI dest 0 ((cfg.numDests : Int) - 1)
    Function.update gs g { s with
      lastMidiValue := byte2
      targetDest := td
      targetGains := targetGainsFor cfg.numDests td s.targetGains }

/-- The MIDI entry point `midiMessage(_NT_algorithm*, byte0, byte1, byte2)`:
a no-op unless the status nibble is Control Change (`0xB0`); otherwise each
group is offered the message. -/
def midiMessage (cfg : StepConfig) (byte0 byte1 byte2 : Nat)
    (gs : Fin 4 → MixerGroupState) : Fin 4 → MixerGroupState :=
  let status := byte0 &&& 0xF0
  let channel := (byte0 &&& 0x0F) + 1
  if status ≠ 0xB0 then gs
  else ((List.finRange 4).filter fun g => g.val < cfg.numGroups).foldl
    (midiGroupUpdate cfg byte1 byte2 channel) gs

/-- Concrete configuration for the MIDI edge-detection scenario: one group,
four destinations, Trigger policy (raw parameter 2), MIDI enabled, channel 1,
CC 10. -/
def midiTrigConfig : StepConfig :=
  { numGroups := 1
    numDests := 4
    groups := fun _ =>
      { ctrlTypeParam := 2
        midiEnable := 1
        midiChannel := 1
        midiCC := 10 } }

/-- All-default group states (`targetDest = 0`, `lastMidiValue = 0`). -/
def initialGroups : Fin 4 → MixerGroupState := fun _ => {}

/-- Deliver a list of CC values for controller 10 on channel 1 (status byte
`0xB0`) to `midiTrigConfig`, starting from the default states. -/
def midiCCSeq (vals : List Nat) : Fin 4 → MixerGroupState :=
  vals.foldl (fun acc v => midiMessage midiTrigConfig 0xB0 10 v acc)
    initialGroups

/-! ### Helper lemmas -/

theorem clampI_nonneg_lt (x D : Int) (hD : 2 ≤ D) :
    0 ≤ clampI x 0 (D - 1) ∧ clampI x 0 (D - 1) < D := by
  unfold clampI
  omega

theorem clampI_id (x lo hi : Int) (h1 : lo ≤ x) (h2 : x ≤ hi) :
    clampI x lo hi = x := by
  unfold clampI
  omega

theorem foldl_apply_preserve {S : Type} (f : (Fin 4 → S) → Fin 4 → (Fin 4 → S))
    (g : Fin 4) (h : ∀ acc g2, (f acc g2) g = acc g) :
    ∀ (l : List (Fin 4)) (init : Fin 4 → S), (l.foldl f init) g = init g := by
  intro l
  induction l with
  | nil => intro init; rfl
  | cons a t ih =>
      intro init
      rw [List.foldl_cons, ih]
      exact h init a

/-! ### Claim theorems -/

/-- C1 counterexample: with the per-group slew parameter exactly zero and a
global slew of 10 ms (`1/100` s), the effective slew time computed by `step`
is `0`, not the global value, and the slew rate snaps to `1` (instant) —
refuting the claim that a zero group fade setting means "use global". -/
theorem slew_zero_uses_global_refuted :
    slewTimeOf 0 (1/100) = 0 ∧ slewTimeOf 0 (1/100) ≠ 1/100 ∧
    slewRateOf (fun _ => 1/2) 48000 (slewTimeOf 0 (1/100)) = 1 := by
  refine ⟨rfl, by norm_num [slewTimeOf], ?_⟩
  norm_num [slewTimeOf, slewRateOf, GAIN_EPS]

/-- C1 amended: the per-group slew setting is taken as the effective slew
time whenever it is nonnegative (which the 0–5000 ms parameter range always
ensures), so a group slew of exactly zero yields effective slew time zero
and an instant snap (slew rate 1); the global default would be consulted
only for a negative group setting. There is no destination-crossfade-enable
flag in the code. -/
theorem slew_zero_is_instant (expf : ℚ → ℚ) (sampleRate slewMs globalSlewMs : ℚ)
    (h : 0 ≤ slewMs) :
    slewTimeOf slewMs globalSlewMs = slewMs ∧
    (slewMs = 0 →
      slewRateOf expf sampleRate (slewTimeOf slewMs globalSlewMs) = 1) := by
  constructor
  · simp [slewTimeOf, h]
  · intro h0
    subst h0
    simp [slewTimeOf, slewRateOf, GAIN_EPS]

/-- Witness for `slew_zero_is_instant` at group slew 0 ms, global 10 ms. -/
theorem slew_zero_is_instant_witness :
    slewTimeOf 0 (1/100) = 0 ∧
    ((0:ℚ) = 0 → slewRateOf (fun _ => 0) 48000 (slewTimeOf 0 (1/100)) = 1) :=
  slew_zero_is_instant (fun _ => 0) 48000 0 (1/100) (le_refl 0)

/-- C2 counterexample: at unit volume with equal left/right input 1, the
Signal Stage outputs 1 on the left channel — not the ≈0.707 equal-power
centre gain the claim requires; there is no panning computation at all. -/
theorem pan_constant_power_refuted :
    (signalStage (some 1) (some 1) 1).1 = 1 ∧
    ¬ (signalStage (some 1) (some 1) 1).1 < 3/4 := by
  constructor
  · norm_num [signalStage]
  · norm_num [signalStage]

/-- C2 amended: the Signal Stage applies only the volume scalar; no panning
exists. The output pair is the input pair scaled by volume, with the left
channel duplicated when the right bus is absent and zero when both are
absent. -/
theorem signalStage_volume_only (l r v : ℚ) :
    signalStage (some l) (some r) v = (l * v, r * v) ∧
    signalStage (some l) none v = (l * v, l * v) ∧
    signalStage none none v = (0, 0) := by
  refine ⟨rfl, rfl, ?_⟩
  simp [signalStage]

/-- C3 counterexample: under the Gate policy with a control value of 5 V
(above the 2.5 V threshold) and `lastTriggerHigh = false`, the decoder
leaves the entire state — in particular the edge history — unchanged,
refuting the claim that the edge history is still updated. -/
theorem gate_edge_history_refuted :
    GATE_THRESHOLD < (5:ℚ) ∧
    (processControl 5 ControlType.gate 2 {}).2 = ({} : MixerGroupState) ∧
    (processControl 5 ControlType.gate 2 {}).2.lastTriggerHigh = false := by
  refine ⟨by norm_num [GATE_THRESHOLD], rfl, rfl⟩

/-- C3 amended: under Gate and Gate-Reverse the destination decision is
purely level-based (above threshold selects index 1 when D ≥ 2, below
selects 0; reversed for Gate-Reverse) and the group's edge history — indeed
the whole state — is left untouched, not updated. -/
theorem gate_level_semantics (cv : ℚ) (D : Int) (s : MixerGroupState)
    (hD : 2 ≤ D) :
    (processControl cv ControlType.gate D s).2 = s ∧
    (processControl cv ControlType.gateRev D s).2 = s ∧
    (processControl cv ControlType.gate D s).1 =
      (if GATE_THRESHOLD < cv then 1 else 0) ∧
    (processControl cv ControlType.gateRev D s).1 =
      (if GATE_THRESHOLD < cv then 0 else 1) := by
  refine ⟨rfl, rfl, ?_, ?_⟩ <;>
    · by_cases hc : GATE_THRESHOLD < cv <;>
        simp [processControl, hc, clampI] <;> omega

/-- Witness for `gate_level_semantics` at cv = 5, D = 2. -/
theorem gate_level_semantics_witness :
    (processControl 5 ControlType.gate 2 {}).2 = ({} : MixerGroupState) ∧
    (processControl 5 ControlType.gateRev 2 {}).1 =
      (if GATE_THRESHOLD < (5:ℚ) then 0 else 1) :=
  ⟨(gate_level_semantics 5 2 {} (by decide)).1,
   (gate_level_semantics 5 2 {} (by decide)).2.2.2⟩

/-- C6: for every policy, every destination count D in [2,4], every state
with an in-range target destination, and every finite control value, the
Control Decoder returns an index in [0, D-1]. -/
theorem processControl_in_range (cv : ℚ) (ty : ControlType) (D : Int)
    (s : MixerGroupState) (hD2 : 2 ≤ D) (hD4 : D ≤ 4)
    (h0 : 0 ≤ s.targetDest) (h1 : s.targetDest < D) :
    0 ≤ (processControl cv ty D s).1 ∧ (processControl cv ty D s).1 < D := by
  cases ty <;> exact clampI_nonneg_lt _ D hD2

/-- Witness for `processControl_in_range` at cv = 100 V (far out of range),
Unipolar, D = 4. -/
theorem processControl_in_range_witness :
    0 ≤ (processControl 100 ControlType.unipolar 4 {}).1 ∧
    (processControl 100 ControlType.unipolar 4 {}).1 < 4 :=
  processControl_in_range 100 ControlType.unipolar 4 {}
    (by decide) (by decide) (by decide) (by decide)

/-- C9: when the Bypass parameter is nonzero, the per-block entry point
returns immediately: for any block length, every bus buffer and every
group's runtime state is left exactly unchanged. -/
theorem step_bypass_noop (expf dbToGain : ℚ → ℚ) (cfg : StepConfig) (N : Nat)
    (st : MixerState) (h : cfg.bypassParam ≠ 0) :
    step expf dbToGain cfg N st = st := by
  simp [step, h]

/-- Witness for `step_bypass_noop` with Bypass on and a 16-sample block. -/
theorem step_bypass_noop_witness :
    step (fun _ => 0) (fun q => q) { bypassParam := 1 } 16
      { groups := fun _ => {}, buses := fun _ _ => 0 } =
      { groups := fun _ => {}, buses := fun _ _ => 0 } :=
  step_bypass_noop (fun _ => 0) (fun q => q) { bypassParam := 1 } 16
    { groups := fun _ => {}, buses := fun _ _ => 0 } (by decide)

/-- C4: with MIDI enabled and matching channel/CC, under the Trigger policy
and starting from `lastMidiValue = 0`, the CC value sequence
[0, 0, 100, 100, 0] advances `targetDest` exactly once — at the 0→100
transition — with no change on the repeated 100 nor on the final drop to 0. -/
theorem midi_trigger_sequence_once :
    ((midiCCSeq [0]) 0).targetDest = 0 ∧
    ((midiCCSeq [0, 0]) 0).targetDest = 0 ∧
    ((midiCCSeq [0, 0, 100]) 0).targetDest = 1 ∧
    ((midiCCSeq [0, 0, 100, 100]) 0).targetDest = 1 ∧
    ((midiCCSeq [0, 0, 100, 100, 0]) 0).targetDest = 1 := by
  decide

/-- The stored destination after a Trigger decode: advances by one modulo D
exactly on a strict low→high transition over the 2.5 V threshold. -/
theorem applyControl_trigger_targetDest (cv : ℚ) (D : Int) (s : MixerGroupState)
    (hD : 2 ≤ D) (h0 : 0 ≤ s.targetDest) (h1 : s.targetDest < D) :
    (applyControl cv ControlType.trigger D s).targetDest =
      if TRIGGER_THRESHOLD < cv ∧ s.lastTriggerHigh = false
      then (s.targetDest + 1) % D else s.targetDest := by
  by_cases hcv : TRIGGER_THRESHOLD < cv
  · by_cases hl : s.lastTriggerHigh = true
    · simp [applyControl, processControl, hcv, hl, clampI]
      omega
    · have hl2 : s.lastTriggerHigh = false := by
        revert hl; cases s.lastTriggerHigh <;> simp
      have hmod : (s.targetDest + 1).tmod D = (s.targetDest + 1) % D :=
        Int.tmod_eq_emod (by omega) (by omega)
      have h2 := Int.emod_nonneg (s.targetDest + 1) (show D ≠ 0 by omega)
      have h3 := Int.emod_lt_of_pos (s.targetDest + 1) (show (0:Int) < D by omega)
      simp [applyControl, processControl, hcv, hl2, clampI, hmod]
      omega
  · simp [applyControl, processControl, hcv, clampI]
    omega

/-- The stored destination after a Trigger-Reverse decode: retreats by one
modulo D exactly on a strict low→high transition. -/
theorem applyControl_trigRev_targetDest (cv : ℚ) (D : Int) (s : MixerGroupState)
    (hD : 2 ≤ D) (h0 : 0 ≤ s.targetDest) (h1 : s.targetDest < D) :
    (applyControl cv ControlType.trigRev D s).targetDest =
      if TRIGGER_THRESHOLD < cv ∧ s.lastTriggerHigh = false
      then (s.targetDest + D - 1) % D else s.targetDest := by
  by_cases hcv : TRIGGER_THRESHOLD < cv
  · by_cases hl : s.lastTriggerHigh = true
    · simp [applyControl, processControl, hcv, hl, clampI]
      omega
    · have hl2 : s.lastTriggerHigh = false := by
        revert hl; cases s.lastTriggerHigh <;> simp
      have hmod : (s.targetDest + D - 1).tmod D = (s.targetDest + D - 1) % D :=
        Int.tmod_eq_emod (by omega) (by omega)
      have h2 := Int.emod_nonneg (s.targetDest + D - 1) (show D ≠ 0 by omega)
      have h3 := Int.emod_lt_of_pos (s.targetDest + D - 1) (show (0:Int) < D by omega)
      simp [applyControl, processControl, hcv, hl2, clampI, hmod]
      omega
  · simp [applyControl, processControl, hcv, clampI]
    omega

/-- Trigger decoding records the current above-threshold state as the new
edge history. -/
theorem applyControl_trigger_lastHigh (cv : ℚ) (D : Int) (s : MixerGroupState) :
    (applyControl cv ControlType.trigger D s).lastTriggerHigh =
      decide (TRIGGER_THRESHOLD < cv) := rfl

/-- C5: under Trigger / Trigger-Reverse the stored destination changes only
on a strict low→high transition over the 2.5 V threshold; a rising edge
advances by +1 (resp. −1) modulo D; the edge history records the current
level; and a second call with sustained high input produces no further
change. -/
theorem trigger_edge_semantics (cv cv2 : ℚ) (D : Int) (s : MixerGroupState)
    (hD : 2 ≤ D) (h0 : 0 ≤ s.targetDest) (h1 : s.targetDest < D) :
    ((applyControl cv ControlType.trigger D s).targetDest ≠ s.targetDest →
      TRIGGER_THRESHOLD < cv ∧ s.lastTriggerHigh = false) ∧
    ((applyControl cv ControlType.trigRev D s).targetDest ≠ s.targetDest →
      TRIGGER_THRESHOLD < cv ∧ s.lastTriggerHigh = false) ∧
    (TRIGGER_THRESHOLD < cv → s.lastTriggerHigh = false →
      (applyControl cv ControlType.trigger D s).targetDest =
        (s.targetDest + 1) % D ∧
      (applyControl cv ControlType.trigRev D s).targetDest =
        (s.targetDest + D - 1) % D) ∧
    ((applyControl cv ControlType.trigger D s).lastTriggerHigh =
      decide (TRIGGER_THRESHOLD < cv)) ∧
    (TRIGGER_THRESHOLD < cv → TRIGGER_THRESHOLD < cv2 →
      (applyControl cv2 ControlType.trigger D
          (applyControl cv ControlType.trigger D s)).targetDest =
        (applyControl cv ControlType.trigger D s).targetDest) := by
  have hTd := applyControl_trigger_targetDest cv D s hD h0 h1
  have hTr := applyControl_trigRev_targetDest cv D s hD h0 h1
  refine ⟨?_, ?_, ?_, applyControl_trigger_lastHigh cv D s, ?_⟩
  · intro hne
    by_cases hc : TRIGGER_THRESHOLD < cv ∧ s.lastTriggerHigh = false
    · exact hc
    · rw [hTd, if_neg hc] at hne
      exact absurd rfl hne
  · intro hne
    by_cases hc : TRIGGER_THRESHOLD < cv ∧ s.lastTriggerHigh = false
    · exact hc
    · rw [hTr, if_neg hc] at hne
      exact absurd rfl hne
  · intro hcv hl
    exact ⟨by rw [hTd, if_pos ⟨hcv, hl⟩], by rw [hTr, if_pos ⟨hcv, hl⟩]⟩
  · intro hcv hcv2
    have hb : 0 ≤ (applyControl cv ControlType.trigger D s).targetDest ∧
        (applyControl cv ControlType.trigger D s).targetDest < D := by
      rw [hTd]
      by_cases hc : TRIGGER_THRESHOLD < cv ∧ s.lastTriggerHigh = false
      · rw [if_pos hc]
        exact ⟨Int.emod_nonneg _ (by omega), Int.emod_lt_of_pos _ (by omega)⟩
      · rw [if_neg hc]
        exact ⟨h0, h1⟩
    have hl1 : (applyControl cv ControlType.trigger D s).lastTriggerHigh = true := by
      rw [applyControl_trigger_lastHigh]
      simp [hcv]
    have hc2 := applyControl_trigger_targetDest cv2 D
      (applyControl cv ControlType.trigger D s) hD hb.1 hb.2
    rw [hc2, if_neg (by simp [hl1])]

/-- Witness for `trigger_edge_semantics`: a 5 V rising edge from the default
state with D = 4. -/
theorem trigger_edge_semantics_witness :
    (applyControl 5 ControlType.trigger 4 {}).targetDest =
      (({} : MixerGroupState).targetDest + 1) % 4 ∧
    (applyControl 5 ControlType.trigRev 4 {}).targetDest =
      (({} : MixerGroupState).targetDest + 4 - 1) % 4 :=
  (trigger_edge_semantics 5 5 4 {} (by decide) (by decide) (by decide)).2.2.1
    (by norm_num [TRIGGER_THRESHOLD]) rfl

/-- C7: one slew step with rate in (0,1] keeps each gain within [0,1], moves
it monotonically toward the target without overshoot, and iterating shrinks
the distance to the target geometrically by (1 − rate) per sample. -/
theorem slew_monotone_bounded (r g t : ℚ) (hr0 : 0 < r) (hr1 : r ≤ 1)
    (hg0 : 0 ≤ g) (hg1 : g ≤ 1) (ht0 : 0 ≤ t) (ht1 : t ≤ 1) :
    (0 ≤ slewStep r g t ∧ slewStep r g t ≤ 1) ∧
    (g ≤ t → g ≤ slewStep r g t ∧ slewStep r g t ≤ t) ∧
    (t ≤ g → t ≤ slewStep r g t ∧ slewStep r g t ≤ g) ∧
    (∀ n : ℕ, t - (fun x => slewStep r x t)^[n] g = (t - g) * (1 - r)^n) := by
  have key : ∀ a b : ℚ, a ≤ b → a ≤ slewStep r a b ∧ slewStep r a b ≤ b := by
    intro a b hab
    unfold slewStep
    constructor
    · nlinarith [mul_nonneg (sub_nonneg.mpr hab) hr0.le]
    · nlinarith [mul_nonneg (sub_nonneg.mpr hab) (sub_nonneg.mpr hr1)]
  have key2 : ∀ a b : ℚ, b ≤ a → b ≤ slewStep r a b ∧ slewStep r a b ≤ a := by
    intro a b hba
    unfold slewStep
    constructor
    · nlinarith [mul_nonneg (sub_nonneg.mpr hba) (sub_nonneg.mpr hr1)]
    · nlinarith [mul_nonneg (sub_nonneg.mpr hba) hr0.le]
  refine ⟨?_, key g t, key2 g t, ?_⟩
  · rcases le_total g t with h | h
    · have := key g t h
      exact ⟨le_trans hg0 this.1, le_trans this.2 ht1⟩
    · have := key2 g t h
      exact ⟨le_trans ht0 this.1, le_trans this.2 hg1⟩
  · intro n
    induction n with
    | zero => simp
    | succ k ih =>
        rw [Function.iterate_succ_apply']
        have : ∀ x : ℚ, t - slewStep r x t = (t - x) * (1 - r) := by
          intro x; unfold slewStep; ring
        rw [this, ih]; ring

/-- Witness for `slew_monotone_bounded`: rate 1/2 from gain 1 toward target
0 (the active component of the [1,0,0,0] → [0,1,0,0] transition); after 20
samples the residual is (1/2)^20, below the 1e-4 epsilon. -/
theorem slew_monotone_bounded_witness :
    (0 ≤ slewStep (1/2) 1 0 ∧ slewStep (1/2) 1 0 ≤ 1) ∧
    ((0:ℚ) - (fun x => slewStep (1/2) x 0)^[20] 1 =
      ((0:ℚ) - 1) * (1 - 1/2)^20) ∧
    ((1 : ℚ) - 1/2)^20 < GAIN_EPS :=
  ⟨(slew_monotone_bounded (1/2) 1 0 (by norm_num) (by norm_num) (by norm_num)
      (by norm_num) (by norm_num) (by norm_num)).1,
   (slew_monotone_bounded (1/2) 1 0 (by norm_num) (by norm_num) (by norm_num)
      (by norm_num) (by norm_num) (by norm_num)).2.2.2 20,
   by norm_num [GAIN_EPS]⟩

/-- C8: for a destination with assigned buses and gain above the epsilon
threshold the router accumulates signal × gain into the buffer rather than
overwriting it, so two groups routed to the same destination superpose: the
resulting sample is the initial buffer content plus both contributions. -/
theorem router_additivity (busL busR : Int) (n : Nat) (s1L s1R g1 s2L s2R g2 : ℚ)
    (b : Buses) (hL : 0 < busL) (hR : 0 < busR) (hne : busL ≠ busR)
    (h1 : GAIN_EPS < g1) (h2 : GAIN_EPS < g2) :
    (routerWrite busL busR n s1L s1R g1 b) busL.toNat n =
      b busL.toNat n + s1L * g1 ∧
    (routerWrite busL busR n s2L s2R g2 (routerWrite busL busR n s1L s1R g1 b))
      busL.toNat n = b busL.toNat n + s1L * g1 + s2L * g2 ∧
    (routerWrite busL busR n s2L s2R g2 (routerWrite busL busR n s1L s1R g1 b))
      busR.toNat n = b busR.toNat n + s1R * g1 + s2R * g2 := by
  have hneN : busL.toNat ≠ busR.toNat := by omega
  have e1 : ∀ (sL sR gn : ℚ) (bb : Buses), GAIN_EPS < gn →
      (routerWrite busL busR n sL sR gn bb) busL.toNat n =
        bb busL.toNat n + sL * gn := by
    intro sL sR gn bb hg
    simp [routerWrite, routerWrite1, busPtr, writeBus, hg, hL, hR, hneN]
  have e2 : ∀ (sL sR gn : ℚ) (bb : Buses), GAIN_EPS < gn →
      (routerWrite busL busR n sL sR gn bb) busR.toNat n =
        bb busR.toNat n + sR * gn := by
    intro sL sR gn bb hg
    simp [routerWrite, routerWrite1, busPtr, writeBus, hg, hL, hR, hneN,
      Ne.symm hneN]
  refine ⟨e1 s1L s1R g1 b h1, ?_, ?_⟩
  · rw [e1 s2L s2R g2 _ h2, e1 s1L s1R g1 b h1]
  · rw [e2 s2L s2R g2 _ h2, e2 s1L s1R g1 b h1]

/-- Witness for `router_additivity`: buses 13/14, two contributions with
gain 1/2 into an initially silent buffer. -/
theorem router_additivity_witness :
    (routerWrite 13 14 0 3 4 (1/2)
        (routerWrite 13 14 0 1 2 (1/2) (fun _ _ => 0)))
      (13 : Int).toNat 0 = 0 + 1 * (1/2) + 3 * (1/2) :=
  (router_additivity 13 14 0 1 2 (1/2) 3 4 (1/2) (fun _ _ => 0)
    (by decide) (by decide) (by decide)
    (by norm_num [GAIN_EPS]) (by norm_num [GAIN_EPS])).2.1

/-- A group whose skip conditions hold is never modified by the per-group
MIDI body, and updates to other groups do not affect it. -/
theorem midiGroupUpdate_preserve (cfg : StepConfig) (b1 b2 ch : Nat) (g : Fin 4)
    (hskip : (cfg.groups g).midiEnable = 0 ∨
      ((ch : Nat) : Int) ≠ (cfg.groups g).midiChannel ∨
      ((b1 : Nat) : Int) ≠ (cfg.groups g).midiCC) :
    ∀ acc g2, midiGroupUpdate cfg b1 b2 ch acc g2 g = acc g := by
  intro acc g2
  by_cases hg : g2 = g
  · subst hg
    by_cases c1 : (cfg.groups g2).midiEnable = 0
    · simp [midiGroupUpdate, c1]
    · by_cases c2 : ((ch : Nat) : Int) ≠ (cfg.groups g2).midiChannel
      · simp [midiGroupUpdate, c1, c2]
      · by_cases c3 : ((b1 : Nat) : Int) ≠ (cfg.groups g2).midiCC
        · simp [midiGroupUpdate, c1, c2, c3]
        · rcases hskip with h | h | h
          · exact absurd h c1
          · exact absurd h c2
          · exact absurd h c3
  · have hgne : g ≠ g2 := fun e => hg e.symm
    unfold midiGroupUpdate
    split
    · rfl
    · split
      · rfl
      · split
        · rfl
        · exact Function.update_noteq hgne _ acc

/-- C10: the MIDI entry point is a complete no-op for any non-Control-Change
status nibble; and for a CC message, every group whose MIDI enable is off or
whose channel or CC number does not match keeps its entire runtime state —
including `lastMidiValue` — unchanged. -/
theorem midiMessage_filtering (cfg : StepConfig) (byte0 byte1 byte2 : Nat)
    (gs : Fin 4 → MixerGroupState) :
    (byte0 &&& 0xF0 ≠ 0xB0 → midiMessage cfg byte0 byte1 byte2 gs = gs) ∧
    (∀ g : Fin 4,
      ((cfg.groups g).midiEnable = 0 ∨
       (((byte0 &&& 0x0F) + 1 : Nat) : Int) ≠ (cfg.groups g).midiChannel ∨
       ((byte1 : Nat) : Int) ≠ (cfg.groups g).midiCC) →
      midiMessage cfg byte0 byte1 byte2 gs g = gs g) := by
  constructor
  · intro h
    simp [midiMessage, h]
  · intro g hskip
    by_cases hst : byte0 &&& 0xF0 ≠ 0xB0
    · simp [midiMessage, hst]
    · unfold midiMessage
      rw [if_neg hst]
      exact foldl_apply_preserve _ g
        (midiGroupUpdate_preserve cfg byte1 byte2 ((byte0 &&& 0x0F) + 1) g hskip)
        _ gs

/-- Witness for `midiMessage_filtering`: a Note-On message (status `0x90`)
leaves the default states untouched. -/
theorem midiMessage_filtering_witness :
    midiMessage {} 0x90 10 100 (fun _ => ({} : MixerGroupState)) =
      (fun _ => ({} : MixerGroupState)) :=
  (midiMessage_filtering {} 0x90 10 100 (fun _ => {})).1 (by decide)

end SwMx
